import Mathlib

/-!
Verification development for the agentlens backend core:
a shallow embedding of the ingestion pipeline
(`src/backend/routes/events.js`) and of the alert rule engine
(`src/backend/routes/alerts.js`, metric evaluator included), with theorems
settling the specified properties of both subsystems.

Modelling conventions:
* SQLite rows become Lean structures; a table becomes a `List` of rows.
  `INSERT OR IGNORE` on a primary key inserts only when no row with that
  key exists; `UPDATE ... WHERE` maps over the rows.
* JavaScript string fields that may be absent or non-string become
  `Option String`; numeric fields that may be absent or non-finite become
  `Option Rat` (`Math.floor` and clamping are applied exactly where the
  code applies them).
* Timestamps are modelled as milliseconds since the epoch (`Nat`): the
  stored ISO-8601 strings all have the same shape, so SQL's lexicographic
  `>=` on them coincides with `≤` on the instants, and
  `new Date(Date.now() - k).toISOString()` becomes truncated subtraction.
* `uuidv4()` / `generateId()` are modelled by an injected id supply
  `gen : Nat → String` together with a counter.
-/

set_option maxRecDepth 10000

namespace AgentLens

/-! ### Sanitization helpers (events.js lines 7–55) -/

/-- Number of records allowed per batch (`MAX_BATCH_SIZE`). -/
def MAX_BATCH_SIZE : Nat := 500

/-- Cap for serialized JSON data fields (`MAX_DATA_LENGTH`), 256KB. -/
def MAX_DATA_LENGTH : Nat := 1024 * 256

/-- The control characters stripped by `sanitizeString`
(the regex `[\x00-\x08\x0B\x0C\x0E-\x1F\x7F]`). -/
def isControlChar (c : Char) : Bool :=
  c.toNat ≤ 0x08 || c.toNat == 0x0B || c.toNat == 0x0C ||
    (0x0E ≤ c.toNat && c.toNat ≤ 0x1F) || c.toNat == 0x7F

/-- `sanitizeString(val, maxLen)`: `null` for a non-string, otherwise strip
control characters and cut to `maxLen`. -/
def sanitizeString (val : Option String) (maxLen : Nat) : Option String :=
  match val with
  | none => none
  | some v => some (String.mk ((v.data.filter (fun c => !isControlChar c)).take maxLen))

/-- JavaScript `a || d` for an optional string `a`: the default applies when
the field is absent or the empty string (both falsy). -/
def jsOr (s : Option String) (d : String) : String :=
  match s with
  | some v => if v == "" then d else v
  | none => d

/-- The character class of `SESSION_ID_RE`, `[a-zA-Z0-9_\-.:]`. -/
def sessionIdCharOk (c : Char) : Bool :=
  c.isAlpha || c.isDigit || c == '_' || c == '-' || c == '.' || c == ':'

/-- `validateSessionId(id)`: `null` unless `id` is a non-empty string whose
first 128 characters (after the cut) are non-empty and all match
`SESSION_ID_RE`; returns the cut string. -/
def validateSessionId (id : Option String) : Option String :=
  match id with
  | none => none
  | some s =>
    if s == "" then none
    else
      let trimmed := String.mk (s.data.take 128)
      if !trimmed.data.isEmpty && trimmed.data.all sessionIdCharOk then some trimmed
      else none

/-- `safeJsonStringify(data)`: blob fields are modelled by their serialized
form, so this keeps the string unless it exceeds the size cap, in which case
it is replaced by the truncation marker object. -/
def safeJsonStringify (data : Option String) : Option String :=
  match data with
  | none => none
  | some s => if s.length > MAX_DATA_LENGTH then some "\x7b\x22_truncated\x22:true\x7d" else some s

/-! ### Data model (src/backend/lib db schema) -/

/-- A row of the `sessions` table. -/
structure SessionRow where
  session_id : String
  agent_name : String
  started_at : Nat
  ended_at : Option Nat
  metadata : String
  total_tokens_in : Int
  total_tokens_out : Int
  status : String
deriving Repr, DecidableEq

/-- A row of the `events` table. -/
structure EventRow where
  event_id : String
  session_id : String
  event_type : String
  timestamp : Nat
  input_data : Option String
  output_data : Option String
  model : Option String
  tokens_in : Int
  tokens_out : Int
  tool_call : Option String
  decision_trace : Option String
  duration_ms : Option Rat
deriving Repr, DecidableEq

/-- The two tables the ingestion pipeline and metric evaluator touch. -/
structure Store where
  sessions : List SessionRow
  events : List EventRow
deriving Repr, DecidableEq

/-- A store with no rows. -/
def emptyStore : Store := { sessions := [], events := [] }

/-- One producer record of a batch (`events.js` reads these fields from
each element of the request's `events` array). -/
structure EventRecord where
  session_id : Option String
  event_id : Option String
  event_type : Option String
  timestamp : Option Nat
  agent_name : Option String
  metadata : Option String
  ended_at : Option Nat
  status : Option String
  total_tokens_in : Option Rat
  total_tokens_out : Option Rat
  tokens_in : Option Rat
  tokens_out : Option Rat
  duration_ms : Option Rat
  input_data : Option String
  output_data : Option String
  model : Option String
  tool_call : Option String
  decision_trace : Option String
deriving Repr, DecidableEq

/-- A record with every field absent. -/
def emptyRecord : EventRecord :=
  ⟨none, none, none, none, none, none, none, none, none, none, none, none, none,
   none, none, none, none, none⟩

/-- `VALID_EVENT_TYPES` as the code enumerates it (events.js lines 11–19). -/
def VALID_EVENT_TYPES : List String :=
  ["session_start", "session_end", "llm_call", "tool_call", "agent_call", "error", "generic"]

/-! ### Prepared statements (events.js lines 79–101) -/

/-- `insertSession` (`INSERT OR IGNORE INTO sessions`): a no-op when a row
with this `session_id` already exists. -/
def insertSessionOrIgnore (st : Store) (row : SessionRow) : Store :=
  if st.sessions.any (fun s => s.session_id == row.session_id) then st
  else { st with sessions := st.sessions ++ [row] }

/-- `insertEvent` (`INSERT OR IGNORE INTO events`): a no-op when a row with
this `event_id` already exists. -/
def insertEventOrIgnore (st : Store) (row : EventRow) : Store :=
  if st.events.any (fun e => e.event_id == row.event_id) then st
  else { st with events := st.events ++ [row] }

/-- `updateSession`: add the record's token counts to the matching session
row's running totals. -/
def updateSessionTokens (st : Store) (tin tout : Int) (sid : String) : Store :=
  { st with sessions := st.sessions.map (fun s =>
      if s.session_id == sid then
        { s with total_tokens_in := s.total_tokens_in + tin,
                 total_tokens_out := s.total_tokens_out + tout }
      else s) }

/-- `endSession`: overwrite `ended_at`/`status` of the matching session row,
and overwrite each token total only when the supplied total is positive
(the SQL `CASE WHEN ? > 0 THEN ? ELSE ... END`). -/
def endSessionRun (st : Store) (endedAt : Nat) (stat : String) (tin tout : Int)
    (sid : String) : Store :=
  { st with sessions := st.sessions.map (fun s =>
      if s.session_id == sid then
        { s with ended_at := some endedAt,
                 status := stat,
                 total_tokens_in := if tin > 0 then tin else s.total_tokens_in,
                 total_tokens_out := if tout > 0 then tout else s.total_tokens_out }
      else s) }

/-! ### Per-record processing (events.js lines 103–201) -/

/-- `Number.isFinite(x) ? Math.max(0, Math.floor(x)) : 0`. -/
def clampTokens (x : Option Rat) : Int :=
  match x with
  | some q => max 0 ⌊q⌋
  | none => 0

/-- `Number.isFinite(x) ? Math.max(0, x) : null`. -/
def clampDuration (x : Option Rat) : Option Rat :=
  match x with
  | some q => some (max 0 q)
  | none => none

/-- The effective event type:
`sanitizeString(event.event_type || "generic", 64)`. -/
def effEventType (r : EventRecord) : String :=
  (sanitizeString (some (jsOr r.event_type "generic")) 64).getD ""

/-- The effective session-end status:
`sanitizeString(event.status || "completed", 32)`. -/
def effEndStatus (r : EventRecord) : String :=
  (sanitizeString (some (jsOr r.status "completed")) 32).getD ""

/-- The explicit event id, when `sanitizeString(event.event_id, 64)` yields
a truthy (non-empty) string; `none` means the `uuidv4()` fallback fires. -/
def explicitEventId (r : EventRecord) : Option String :=
  match sanitizeString r.event_id 64 with
  | some s => if s == "" then none else some s
  | none => none

/-- Mutable state of the ingestion transaction: the store plus the
`processed`/`skipped` counters and the id-supply counter. -/
structure IngestState where
  store : Store
  processed : Nat
  skipped : Nat
  fresh : Nat
deriving Repr, DecidableEq

/-- One iteration of the `for (const event of eventList)` loop of the
ingestion transaction: validate the session id and the event type (skip on
failure), then dispatch on `session_start` / `session_end` / regular
event exactly as the code does. -/
def processEvent (now : Nat) (gen : Nat → String) (s : IngestState)
    (r : EventRecord) : IngestState :=
  match validateSessionId r.session_id with
  | none => { s with skipped := s.skipped + 1 }
  | some sessionId =>
    let eventType := effEventType r
    if !VALID_EVENT_TYPES.contains eventType then { s with skipped := s.skipped + 1 }
    else
      let tokensIn := clampTokens r.tokens_in
      let tokensOut := clampTokens r.tokens_out
      let durationMs := clampDuration r.duration_ms
      if eventType == "session_start" then
        { s with
          store := insertSessionOrIgnore s.store
            { session_id := sessionId,
              agent_name := (sanitizeString (some (jsOr r.agent_name "default-agent")) 256).getD "",
              started_at := r.timestamp.getD now,
              ended_at := none,
              metadata := (safeJsonStringify (some (r.metadata.getD "\x7b\x7d"))).getD "",
              total_tokens_in := 0,
              total_tokens_out := 0,
              status := "active" },
          processed := s.processed + 1 }
      else if eventType == "session_end" then
        let totalTokIn := clampTokens r.total_tokens_in
        let totalTokOut := clampTokens r.total_tokens_out
        { s with
          store := endSessionRun s.store (r.ended_at.getD now) (effEndStatus r)
            totalTokIn totalTokOut sessionId,
          processed := s.processed + 1 }
      else
        let eventId := match explicitEventId r with
          | some e => e
          | none => gen s.fresh
        let fresh' := match explicitEventId r with
          | some _ => s.fresh
          | none => s.fresh + 1
        let store1 := insertSessionOrIgnore s.store
          { session_id := sessionId,
            agent_name := "default-agent",
            started_at := r.timestamp.getD now,
            ended_at := none,
            metadata := "\x7b\x7d",
            total_tokens_in := 0,
            total_tokens_out := 0,
            status := "active" }
        let store2 := insertEventOrIgnore store1
          { event_id := eventId,
            session_id := sessionId,
            event_type := eventType,
            timestamp := r.timestamp.getD now,
            input_data := safeJsonStringify r.input_data,
            output_data := safeJsonStringify r.output_data,
            model := sanitizeString r.model 128,
            tokens_in := tokensIn,
            tokens_out := tokensOut,
            tool_call := safeJsonStringify r.tool_call,
            decision_trace := safeJsonStringify r.decision_trace,
            duration_ms := durationMs }
        let store3 := updateSessionTokens store2 tokensIn tokensOut sessionId
        { store := store3, processed := s.processed + 1, skipped := s.skipped,
          fresh := fresh' }

/-- The whole `db.transaction((eventList) => ...)` body. -/
def runTransaction (now : Nat) (gen : Nat → String) (st : Store)
    (records : List EventRecord) : IngestState :=
  records.foldl (processEvent now gen)
    { store := st, processed := 0, skipped := 0, fresh := 0 }

/-- The response counters of a successful batch submission. -/
structure BatchResult where
  processed : Nat
  skipped : Nat
deriving Repr, DecidableEq

/-- `POST /events`: reject a missing/non-array `events` value and an
oversized batch before any processing; otherwise run the transaction.
`none` models a request body whose `events` value is absent or not a list.
The returned store is the database after the call. -/
def submit (now : Nat) (gen : Nat → String) (st : Store)
    (input : Option (List EventRecord)) : Except String BatchResult × Store :=
  match input with
  | none => (.error "Missing events array in request body", st)
  | some events =>
    if events.length > MAX_BATCH_SIZE then (.error "Batch too large", st)
    else
      let fin := runTransaction now gen st events
      (.ok { processed := fin.processed, skipped := fin.skipped }, fin.store)

/-- Row-level validation: the record survives the two skip checks. -/
def rowValid (r : EventRecord) : Bool :=
  (validateSessionId r.session_id).isSome && VALID_EVENT_TYPES.contains (effEventType r)

/-- The session row stored under a given id, if any. -/
def sessionRow (st : Store) (sid : String) : Option SessionRow :=
  st.sessions.find? (fun s => s.session_id == sid)

/-- Whether an event row with the given id is stored. -/
def hasEvent (st : Store) (eid : String) : Bool :=
  st.events.any (fun e => e.event_id == eid)

/-! ### Alert rule engine (src/backend/routes/alerts.js) -/

/-- A row of the `alert_rules` table. -/
structure AlertRule where
  rule_id : String
  name : String
  metric : String
  operator : String
  threshold : Rat
  window_minutes : Nat
  agent_filter : Option String
  enabled : Bool
  cooldown_minutes : Nat
deriving Repr, DecidableEq

/-- A row of the `alert_events` table. -/
structure AlertEventRow where
  alert_id : String
  rule_id : String
  triggered_at : Nat
  metric_value : Rat
  details : String
  acknowledged : Bool
  acknowledged_at : Option Nat
deriving Repr, DecidableEq

/-- The alert-event row the engine persists on a `fired` outcome. -/
def firedAlert (aid rid : String) (now : Nat) (v : Rat) : AlertEventRow :=
  { alert_id := aid, rule_id := rid, triggered_at := now, metric_value := v,
    details := "\x7b\x7d", acknowledged := false, acknowledged_at := none }

/-- `VALID_METRICS` (alerts.js lines 44–53). -/
def VALID_METRICS : List String :=
  ["total_tokens", "avg_tokens_per_session", "error_rate", "avg_duration_ms",
   "max_duration_ms", "session_count", "event_count", "token_rate"]

/-- The optional `AND s.agent_name = ?` clause: `agentFilter ? ... : ""`
treats an absent (or empty, hence falsy) filter as no restriction. -/
def agentMatches (af : Option String) (name : String) : Bool :=
  match af with
  | none => true
  | some a => if a == "" then true else name == a

/-- Sessions satisfying `s.started_at >= windowStart` and the agent clause. -/
def sessionsInWindow (st : Store) (windowStart : Nat) (af : Option String) :
    List SessionRow :=
  st.sessions.filter (fun s =>
    decide (windowStart ≤ s.started_at) && agentMatches af s.agent_name)

/-- The `JOIN sessions s ON e.session_id = s.session_id` partner of an event. -/
def joinedSession (st : Store) (e : EventRow) : Option SessionRow :=
  st.sessions.find? (fun s => s.session_id == e.session_id)

/-- Events satisfying `e.timestamp >= windowStart`, the join with `sessions`,
and the agent clause. -/
def eventsInWindow (st : Store) (windowStart : Nat) (af : Option String) :
    List EventRow :=
  st.events.filter (fun e =>
    decide (windowStart ≤ e.timestamp) &&
      (match joinedSession st e with
       | some s => agentMatches af s.agent_name
       | none => false))

/-- `SUM(s.total_tokens_in + s.total_tokens_out)` over a list of sessions. -/
def sumSessionTokens (l : List SessionRow) : Int :=
  l.foldl (fun acc s => acc + s.total_tokens_in + s.total_tokens_out) 0

/-- `SUM(e.tokens_in + e.tokens_out)` over a list of events. -/
def sumEventTokens (l : List EventRow) : Int :=
  l.foldl (fun acc e => acc + e.tokens_in + e.tokens_out) 0

/-- `evaluateMetric(metric, windowMinutes, agentFilter)` over the store at
wall-clock `now`: the eight metric kinds, and `Unknown metric` otherwise
(the thrown `Error` becomes `Except.error`). -/
def evaluateMetric (st : Store) (now : Nat) (metric : String)
    (windowMinutes : Nat) (af : Option String) : Except String Rat :=
  let windowStart := now - windowMinutes * 60000
  if metric == "total_tokens" then
    .ok (sumSessionTokens (sessionsInWindow st windowStart af) : Int)
  else if metric == "avg_tokens_per_session" then
    let xs := sessionsInWindow st windowStart af
    if xs.isEmpty then .ok 0
    else .ok ((sumSessionTokens xs : Rat) / (xs.length : Rat))
  else if metric == "error_rate" then
    let evs := eventsInWindow st windowStart af
    let total := evs.length
    let errors := evs.countP (fun e => e.event_type == "error")
    if total > 0 then .ok (((errors : Rat) / (total : Rat)) * 100) else .ok 0
  else if metric == "avg_duration_ms" then
    let ds := (eventsInWindow st windowStart af).filterMap (fun e => e.duration_ms)
    if ds.isEmpty then .ok 0
    else .ok (ds.foldl (· + ·) 0 / (ds.length : Rat))
  else if metric == "max_duration_ms" then
    match (eventsInWindow st windowStart af).filterMap (fun e => e.duration_ms) with
    | [] => .ok 0
    | d :: rest => .ok (rest.foldl max d)
  else if metric == "session_count" then
    .ok ((sessionsInWindow st windowStart af).length : Rat)
  else if metric == "event_count" then
    .ok ((eventsInWindow st windowStart af).length : Rat)
  else if metric == "token_rate" then
    let total := sumEventTokens (eventsInWindow st windowStart af)
    if windowMinutes > 0 then .ok ((total : Rat) / (windowMinutes : Rat)) else .ok 0
  else .error ("Unknown metric: " ++ metric)

/-- `compareValue(value, operator, threshold)`. -/
def compareValue (value : Rat) (op : String) (threshold : Rat) : Bool :=
  if op == "<" then decide (value < threshold)
  else if op == ">" then decide (value > threshold)
  else if op == "<=" then decide (value ≤ threshold)
  else if op == ">=" then decide (value ≥ threshold)
  else if op == "==" then value == threshold
  else if op == "!=" then !(value == threshold)
  else false

/-- `Math.round(q)` (round half up). -/
def jsRound (q : Rat) : Int := ⌊q + (1 : Rat) / 2⌋

/-- `Math.round(value * 100) / 100`, the rounding applied to
`current_value` in the evaluation response. -/
def round2 (q : Rat) : Rat := (jsRound (q * 100) : Rat) / 100

/-- One element of the `results` list of `POST /alerts/evaluate`. -/
structure EvalOutcome where
  rule_id : String
  name : String
  metric : String
  operator : String
  threshold : Rat
  current_value : Rat
  triggered : Bool
  window_minutes : Nat
  agent_filter : Option String
  status : String
  alert_id : Option String
deriving Repr, DecidableEq

/-- One iteration of the rule loop of `POST /alerts/evaluate`: evaluate the
metric, compare against the threshold; on a breach check the cooldown
window (`triggered_at >= now − cooldown_minutes`) and either record a new
alert event (`fired`) or suppress it (`cooldown`); otherwise `ok`.
`alertId` is the id `generateId()` would produce for a fired alert. -/
def ruleStep (st : Store) (now : Nat) (alertId : String)
    (alerts : List AlertEventRow) (r : AlertRule) :
    Except String (EvalOutcome × List AlertEventRow) :=
  match evaluateMetric st now r.metric r.window_minutes r.agent_filter with
  | .error e => .error e
  | .ok value =>
    let triggered := compareValue value r.operator r.threshold
    let base : EvalOutcome :=
      { rule_id := r.rule_id, name := r.name, metric := r.metric,
        operator := r.operator, threshold := r.threshold,
        current_value := round2 value, triggered := triggered,
        window_minutes := r.window_minutes, agent_filter := r.agent_filter,
        status := "", alert_id := none }
    if triggered then
      let cooldownStart := now - r.cooldown_minutes * 60000
      match alerts.find? (fun a =>
          a.rule_id == r.rule_id && decide (cooldownStart ≤ a.triggered_at)) with
      | none =>
        let newAlert : AlertEventRow :=
          { alert_id := alertId, rule_id := r.rule_id, triggered_at := now,
            metric_value := value, details := "\x7b\x7d",
            acknowledged := false, acknowledged_at := none }
        .ok ({ base with status := "fired", alert_id := some alertId },
             alerts ++ [newAlert])
      | some _ => .ok ({ base with status := "cooldown" }, alerts)
    else .ok ({ base with status := "ok" }, alerts)

/-- The rule loop: on an exception the whole pass aborts (the route's only
`try`/`catch` wraps the entire loop), but alert events already written
stay written. `k` counts fired alerts to index the id supply. -/
def evalRulesAux (st : Store) (now : Nat) (gen : Nat → String) :
    List AlertRule → List AlertEventRow → Nat → List EvalOutcome →
    Except String (List EvalOutcome) × List AlertEventRow
  | [], alerts, _, acc => (.ok acc, alerts)
  | r :: rs, alerts, k, acc =>
    match ruleStep st now (gen k) alerts r with
    | .error e => (.error e, alerts)
    | .ok (outcome, alerts') =>
      let k' := if outcome.status == "fired" then k + 1 else k
      evalRulesAux st now gen rs alerts' k' (acc ++ [outcome])

/-- `POST /alerts/evaluate`: evaluate every enabled rule
(`SELECT * FROM alert_rules WHERE enabled = 1`) against the store at `now`,
returning the per-rule outcomes (or the aborting error) and the
resulting `alert_events` table. -/
def evaluateAll (st : Store) (now : Nat) (gen : Nat → String)
    (rules : List AlertRule) (alerts : List AlertEventRow) :
    Except String (List EvalOutcome) × List AlertEventRow :=
  evalRulesAux st now gen (rules.filter (fun r => r.enabled)) alerts 0 []

/-- A sequence of evaluate-all passes, each with its own store snapshot,
wall-clock time and id supply, threading the `alert_events` table. -/
def runPasses (rules : List AlertRule)
    (passes : List (Store × Nat × (Nat → String)))
    (alerts : List AlertEventRow) : List AlertEventRow :=
  passes.foldl (fun al p => (evaluateAll p.1 p.2.1 p.2.2 rules al).2) alerts

/-- The alert events recorded for one rule. -/
def alertsFor (alerts : List AlertEventRow) (rid : String) : List AlertEventRow :=
  alerts.filter (fun a => a.rule_id == rid)

/-- Every two alerts of the list are at least `c` milliseconds apart. -/
def spacedOk (c : Nat) : List AlertEventRow → Bool
  | [] => true
  | a :: rest =>
    rest.all (fun b =>
      decide (a.triggered_at + c ≤ b.triggered_at) ||
        decide (b.triggered_at + c ≤ a.triggered_at)) && spacedOk c rest

/-- The cooldown invariant: for every rule, the alert events recorded for it
are pairwise at least `cooldown_minutes` apart. -/
def cooldownInv (rules : List AlertRule) (alerts : List AlertEventRow) : Bool :=
  rules.all (fun r => spacedOk (r.cooldown_minutes * 60000) (alertsFor alerts r.rule_id))

/-- No two rules of the list share a `rule_id` (the table's primary key). -/
def distinctRuleIds : List AlertRule → Bool
  | [] => true
  | r :: rs => rs.all (fun x => !(x.rule_id == r.rule_id)) && distinctRuleIds rs

/-! ### Concrete instances used in the theorems below -/

/-- A deterministic id supply standing in for `uuidv4()`/`generateId()`. -/
def idGen : Nat → String := fun n => "id" ++ toString n

/-- The initial state of an ingestion transaction over the empty store. -/
def initState : IngestState :=
  { store := emptyStore, processed := 0, skipped := 0, fresh := 0 }

/-- A well-formed `llm_call` record carrying 10/5 tokens under event id
`e1`, session `s`. -/
def dupRecord : EventRecord :=
  { emptyRecord with
    session_id := some "s", event_id := some "e1", event_type := some "llm_call",
    tokens_in := some 10, tokens_out := some 5 }

/-- A record of event type `tool_error` with a valid session id. -/
def toolErrorRecord : EventRecord :=
  { emptyRecord with session_id := some "s", event_type := some "tool_error" }

/-- Lifecycle scenario: the `session_start` record. -/
def lcStart : EventRecord :=
  { emptyRecord with
    session_id := some "s", event_type := some "session_start", timestamp := some 10 }

/-- Lifecycle scenario: a generic event with tokens_in=10, tokens_out=5. -/
def lcGeneric (t : Nat) (i : String) : EventRecord :=
  { emptyRecord with
    session_id := some "s", event_type := some "generic", event_id := some i,
    timestamp := some t, tokens_in := some 10, tokens_out := some 5 }

/-- Lifecycle scenario: the `session_end` record, no explicit totals. -/
def lcEnd : EventRecord :=
  { emptyRecord with
    session_id := some "s", event_type := some "session_end",
    ended_at := some 999, status := some "done" }

/-- The lifecycle batch: start, three generic events, end. -/
def lifecycleBatch : List EventRecord :=
  [lcStart, lcGeneric 20 "a", lcGeneric 30 "b", lcGeneric 40 "c", lcEnd]

/-- A `session_end` record supplying explicit positive totals 5/2. -/
def lowerEnd : EventRecord :=
  { emptyRecord with
    session_id := some "s", event_type := some "session_end",
    total_tokens_in := some 5, total_tokens_out := some 2 }

/-- A session row whose accumulated totals are 30/15. -/
def accRow : SessionRow :=
  { session_id := "s", agent_name := "default-agent", started_at := 10,
    ended_at := none, metadata := "\x7b\x7d", total_tokens_in := 30,
    total_tokens_out := 15, status := "active" }

/-- A store holding one session whose accumulated totals are 30/15. -/
def accumulatedStore : Store := { sessions := [accRow], events := [] }

/-- A bare event row (only id, session, type and timestamp vary below). -/
def mkEventRow (eid sid ty : String) (ts : Nat) : EventRow :=
  { event_id := eid, session_id := sid, event_type := ty, timestamp := ts,
    input_data := none, output_data := none, model := none, tokens_in := 0,
    tokens_out := 0, tool_call := none, decision_trace := none, duration_ms := none }

/-- A store with one session and three joined events, exactly one of type
`error`, all inside any recent window. -/
def errorRateStore : Store :=
  { sessions := [{ session_id := "s", agent_name := "default-agent", started_at := 100,
                   ended_at := none, metadata := "\x7b\x7d", total_tokens_in := 0,
                   total_tokens_out := 0, status := "active" }],
    events := [mkEventRow "x1" "s" "error" 100, mkEventRow "x2" "s" "llm_call" 110,
               mkEventRow "x3" "s" "generic" 120] }

/-- An enabled rule whose metric name is not one of the eight kinds. -/
def badMetricRule : AlertRule :=
  { rule_id := "r1", name := "bad", metric := "bogus", operator := ">", threshold := 0,
    window_minutes := 60, agent_filter := none, enabled := true, cooldown_minutes := 15 }

/-- An enabled `event_count > 0` rule with window 120 and cooldown 60. -/
def countRule : AlertRule :=
  { rule_id := "r2", name := "count", metric := "event_count", operator := ">",
    threshold := 0, window_minutes := 120, agent_filter := none, enabled := true,
    cooldown_minutes := 60 }

/-- The ten-record batch of the partial-batch scenario: nine valid `llm_call`
records with distinct ids and one record with an invalid session id. -/
def tenBatch : List EventRecord :=
  [{ emptyRecord with
       session_id := some "s", event_id := some "e1",
       event_type := some "llm_call" },
   { emptyRecord with
       session_id := some "s", event_id := some "e2",
       event_type := some "llm_call" },
   { emptyRecord with
       session_id := some "s", event_id := some "e3",
       event_type := some "llm_call" },
   { emptyRecord with
       session_id := some "bad session!", event_id := some "e4",
       event_type := some "llm_call" },
   { emptyRecord with
       session_id := some "s", event_id := some "e5",
       event_type := some "llm_call" },
   { emptyRecord with
       session_id := some "s", event_id := some "e6",
       event_type := some "llm_call" },
   { emptyRecord with
       session_id := some "s", event_id := some "e7",
       event_type := some "llm_call" },
   { emptyRecord with
       session_id := some "s", event_id := some "e8",
       event_type := some "llm_call" },
   { emptyRecord with
       session_id := some "s", event_id := some "e9",
       event_type := some "llm_call" },
   { emptyRecord with
       session_id := some "s", event_id := some "e10",
       event_type := some "llm_call" }]

/-- The seventh record of `tenBatch` (event id `e7`). -/
def e7Record : EventRecord :=
  { emptyRecord with
    session_id := some "s", event_id := some "e7", event_type := some "llm_call" }

/-! ### Helper lemmas -/

theorem events_insertSessionOrIgnore (st : Store) (row : SessionRow) :
    (insertSessionOrIgnore st row).events = st.events := by
  unfold insertSessionOrIgnore
  split <;> rfl

theorem events_updateSessionTokens (st : Store) (tin tout : Int) (sid : String) :
    (updateSessionTokens st tin tout sid).events = st.events := rfl

theorem events_endSessionRun (st : Store) (endedAt : Nat) (stat : String)
    (tin tout : Int) (sid : String) :
    (endSessionRun st endedAt stat tin tout sid).events = st.events := rfl

theorem hasEvent_insertEventOrIgnore (st : Store) (row : EventRow) (eid : String)
    (h : hasEvent st eid = true) :
    hasEvent (insertEventOrIgnore st row) eid = true := by
  unfold hasEvent insertEventOrIgnore at *
  split
  · exact h
  · simp only [List.any_append, h, Bool.true_or]

theorem hasEvent_insertEventOrIgnore_self (st : Store) (row : EventRow) :
    hasEvent (insertEventOrIgnore st row) row.event_id = true := by
  unfold hasEvent insertEventOrIgnore
  split
  · assumption
  · simp

theorem sessionRow_insertSessionOrIgnore (st : Store) (row : SessionRow)
    (sid : String) (s0 : SessionRow) (h : sessionRow st sid = some s0) :
    sessionRow (insertSessionOrIgnore st row) sid = some s0 := by
  unfold sessionRow insertSessionOrIgnore at *
  split
  · exact h
  · rw [List.find?_append, h]
    rfl

theorem find?_map_preserving (f : SessionRow → SessionRow)
    (hf : ∀ x, (f x).session_id = x.session_id) (l : List SessionRow) (sid : String) :
    (l.map f).find? (fun s => s.session_id == sid) =
      (l.find? (fun s => s.session_id == sid)).map f := by
  rw [List.find?_map]
  have hp : ((fun s : SessionRow => s.session_id == sid) ∘ f) =
      (fun s : SessionRow => s.session_id == sid) := by
    funext x
    simp [Function.comp, hf]
  rw [hp]

theorem sessionRow_updateSessionTokens (st : Store) (tin tout : Int) (sid0 sid : String) :
    sessionRow (updateSessionTokens st tin tout sid0) sid =
      (sessionRow st sid).map (fun s =>
        if s.session_id == sid0 then
          { s with total_tokens_in := s.total_tokens_in + tin,
                   total_tokens_out := s.total_tokens_out + tout }
        else s) := by
  unfold sessionRow updateSessionTokens
  exact find?_map_preserving _ (fun x => by split <;> rfl) _ _

theorem sessionRow_endSessionRun (st : Store) (endedAt : Nat) (stat : String)
    (tin tout : Int) (sid0 sid : String) :
    sessionRow (endSessionRun st endedAt stat tin tout sid0) sid =
      (sessionRow st sid).map (fun s =>
        if s.session_id == sid0 then
          { s with ended_at := some endedAt, status := stat,
                   total_tokens_in := if tin > 0 then tin else s.total_tokens_in,
                   total_tokens_out := if tout > 0 then tout else s.total_tokens_out }
        else s) := by
  unfold sessionRow endSessionRun
  exact find?_map_preserving _ (fun x => by split <;> rfl) _ _

theorem counters_processEvent (now : Nat) (gen : Nat → String) (s : IngestState)
    (r : EventRecord) :
    (processEvent now gen s r).processed = s.processed + (if rowValid r then 1 else 0) ∧
    (processEvent now gen s r).skipped = s.skipped + (if rowValid r then 0 else 1) := by
  unfold processEvent rowValid
  cases hv : validateSessionId r.session_id with
  | none => simp [hv]
  | some sid =>
    simp only [hv, Option.isSome_some, Bool.true_and]
    cases hc : VALID_EVENT_TYPES.contains (effEventType r) with
    | false => simp [hc]
    | true =>
      simp only [hc, Bool.not_true, Bool.false_eq_true, if_false, if_true]
      split
      · simp
      · split <;> simp

theorem hasEvent_processEvent (now : Nat) (gen : Nat → String) (s : IngestState)
    (r : EventRecord) (eid : String) (h : hasEvent s.store eid = true) :
    hasEvent (processEvent now gen s r).store eid = true := by
  unfold processEvent
  cases hv : validateSessionId r.session_id with
  | none => exact h
  | some sid =>
    cases hc : VALID_EVENT_TYPES.contains (effEventType r) with
    | false => simp only [hc, Bool.not_false, if_true]; exact h
    | true =>
      simp only [hc, Bool.not_true, Bool.false_eq_true, if_false]
      split
      · unfold hasEvent at *
        rw [events_insertSessionOrIgnore]
        exact h
      · split
        · unfold hasEvent at *
          rw [events_endSessionRun]
          exact h
        · unfold hasEvent at *
          rw [events_updateSessionTokens]
          apply hasEvent_insertEventOrIgnore
          unfold hasEvent
          rw [events_insertSessionOrIgnore]
          exact h

theorem hasEvent_processEvent_self (now : Nat) (gen : Nat → String) (s : IngestState)
    (r : EventRecord) (sid eid : String)
    (hv : validateSessionId r.session_id = some sid)
    (hstart : (effEventType r == "session_start") = false)
    (hend : (effEventType r == "session_end") = false)
    (hc : VALID_EVENT_TYPES.contains (effEventType r) = true)
    (hid : explicitEventId r = some eid) :
    hasEvent (processEvent now gen s r).store eid = true := by
  unfold processEvent
  simp only [hv, hc, Bool.not_true, Bool.false_eq_true, if_false, hstart, hend, hid]
  unfold hasEvent
  rw [events_updateSessionTokens]
  exact hasEvent_insertEventOrIgnore_self _ _

theorem counters_foldl (now : Nat) (gen : Nat → String) (recs : List EventRecord)
    (s : IngestState) :
    (recs.foldl (processEvent now gen) s).processed = s.processed + recs.countP rowValid ∧
    (recs.foldl (processEvent now gen) s).skipped =
      s.skipped + recs.countP (fun r => !rowValid r) := by
  induction recs generalizing s with
  | nil => simp
  | cons r rest ih =>
    have hstep := counters_processEvent now gen s r
    have hrest := ih (processEvent now gen s r)
    simp only [List.foldl_cons, List.countP_cons]
    constructor
    · rw [hrest.1, hstep.1]
      cases h : rowValid r <;> simp <;> try omega
    · rw [hrest.2, hstep.2]
      cases h : rowValid r <;> simp <;> try omega

theorem hasEvent_foldl (now : Nat) (gen : Nat → String) (recs : List EventRecord)
    (s : IngestState) (eid : String) (h : hasEvent s.store eid = true) :
    hasEvent ((recs.foldl (processEvent now gen) s)).store eid = true := by
  induction recs generalizing s with
  | nil => exact h
  | cons r rest ih =>
    exact ih _ (hasEvent_processEvent now gen s r eid h)

theorem hasEvent_foldl_mem (now : Nat) (gen : Nat → String) (recs : List EventRecord)
    (s : IngestState) (r : EventRecord) (sid eid : String) (hr : r ∈ recs)
    (hv : validateSessionId r.session_id = some sid)
    (hstart : (effEventType r == "session_start") = false)
    (hend : (effEventType r == "session_end") = false)
    (hc : VALID_EVENT_TYPES.contains (effEventType r) = true)
    (hid : explicitEventId r = some eid) :
    hasEvent ((recs.foldl (processEvent now gen) s)).store eid = true := by
  induction recs generalizing s with
  | nil => cases hr
  | cons hd rest ih =>
    rcases List.mem_cons.mp hr with heq | hmem
    · subst heq
      exact hasEvent_foldl now gen rest _ eid
        (hasEvent_processEvent_self now gen s r sid eid hv hstart hend hc hid)
    · exact ih _ hmem

theorem sessionRow_insertEventOrIgnore (st : Store) (row : EventRow) (sid : String) :
    sessionRow (insertEventOrIgnore st row) sid = sessionRow st sid := by
  unfold sessionRow insertEventOrIgnore
  split <;> rfl

theorem clampTokens_nonneg (x : Option Rat) : 0 ≤ clampTokens x := by
  unfold clampTokens
  cases x with
  | none => exact le_refl 0
  | some q => exact le_max_left 0 _

theorem processEvent_session_end (now : Nat) (gen : Nat → String) (s : IngestState)
    (r : EventRecord) (sid : String)
    (hv : validateSessionId r.session_id = some sid)
    (ht : effEventType r = "session_end") :
    processEvent now gen s r =
      { s with
        store := endSessionRun s.store (r.ended_at.getD now) (effEndStatus r)
                   (clampTokens r.total_tokens_in) (clampTokens r.total_tokens_out) sid,
        processed := s.processed + 1 } := by
  unfold processEvent
  rw [hv, ht]
  rfl

/-! ### Claim theorems -/

/-- C1. The spec claims re-submitting a record with an already-stored
event id is a full no-op for the token totals. Evaluating the code at
the failing input: submitting `dupRecord` (event id `e1`, 10/5 tokens)
twice leaves a single stored event row — the duplicate insert is indeed
ignored — but the second submission runs `updateSession` again, so the
session totals are 20/10 instead of the 10/5 a single submission
produces: duplicate delivery double-counts session token totals. -/
theorem c1_duplicate_submission_double_counts :
    (submit 0 idGen emptyStore (some [dupRecord])).2.events.length = 1 ∧
    (sessionRow (submit 0 idGen emptyStore (some [dupRecord])).2 "s").map
      (fun s => (s.total_tokens_in, s.total_tokens_out)) = some (10, 5) ∧
    (submit 0 idGen (submit 0 idGen emptyStore (some [dupRecord])).2
      (some [dupRecord])).2.events.length = 1 ∧
    (sessionRow (submit 0 idGen (submit 0 idGen emptyStore (some [dupRecord])).2
      (some [dupRecord])).2 "s").map
      (fun s => (s.total_tokens_in, s.total_tokens_out)) = some (20, 10) := by
  refine ⟨rfl, rfl, rfl, rfl⟩

/-- C6 counterexample. The claim says the nine enumerated kinds — among
them `tool_error` — pass the event-type validation. On the code, a
record of type `tool_error` with a valid session id is skipped: the
batch returns `processed = 0, skipped = 1` and writes nothing. -/
theorem c6_tool_error_rejected :
    submit 0 idGen emptyStore (some [toolErrorRecord]) =
      (.ok { processed := 0, skipped := 1 }, emptyStore) := by
  rfl

/-- C6 amended. The ingestion event-type validation accepts exactly the
seven kinds of `VALID_EVENT_TYPES` — `session_start`, `session_end`,
`llm_call`, `tool_call`, `agent_call`, `error`, `generic` —: a record
with a valid session id is not counted as skipped exactly when its
effective event type is one of those seven; `tool_error` and
`agent_error` are rejected. -/
theorem c6_amended_seven_kinds :
    (∀ t : String, VALID_EVENT_TYPES.contains t = true ↔
      (t = "session_start" ∨ t = "session_end" ∨ t = "llm_call" ∨ t = "tool_call" ∨
        t = "agent_call" ∨ t = "error" ∨ t = "generic")) ∧
    (∀ (now : Nat) (gen : Nat → String) (s : IngestState) (r : EventRecord)
        (sid : String), validateSessionId r.session_id = some sid →
      ((processEvent now gen s r).skipped = s.skipped ↔
        VALID_EVENT_TYPES.contains (effEventType r) = true)) := by
  constructor
  · intro t
    simp [VALID_EVENT_TYPES, List.contains_eq_any_beq]
  · intro now gen s r sid hv
    have h := (counters_processEvent now gen s r).2
    rw [h]
    unfold rowValid
    rw [hv]
    simp only [Option.isSome_some, Bool.true_and]
    cases hc : VALID_EVENT_TYPES.contains (effEventType r) <;> simp

/-- C6 amended, witness: a `tool_error` record with valid session id is
counted as skipped because `tool_error` is not among the seven kinds. -/
theorem c6_amended_seven_kinds_witness :
    (processEvent 0 idGen initState toolErrorRecord).skipped = initState.skipped ↔
      VALID_EVENT_TYPES.contains (effEventType toolErrorRecord) = true :=
  c6_amended_seven_kinds.2 0 idGen initState toolErrorRecord "s" rfl

/-- C7. A submission whose `events` value is not a list, or whose batch
exceeds `MAX_BATCH_SIZE` (500), is rejected with a structural error and
the store is left exactly as it was: nothing is written. -/
theorem c7_structural_rejection (now : Nat) (gen : Nat → String) (st : Store)
    (input : Option (List EventRecord))
    (h : input = none ∨ ∃ l, input = some l ∧ l.length > MAX_BATCH_SIZE) :
    (∃ e, (submit now gen st input).1 = Except.error e) ∧
      (submit now gen st input).2 = st := by
  rcases h with rfl | ⟨l, rfl, hl⟩
  · exact ⟨⟨_, rfl⟩, rfl⟩
  · have hs : submit now gen st (some l) = (Except.error "Batch too large", st) := by
      simp only [submit]
      rw [if_pos hl]
    rw [hs]
    exact ⟨⟨_, rfl⟩, rfl⟩

/-- C7 witness: a 501-record batch is rejected and the empty store stays
empty. -/
theorem c7_structural_rejection_witness :
    (∃ e, (submit 0 idGen emptyStore (some (List.replicate 501 emptyRecord))).1 =
      Except.error e) ∧
    (submit 0 idGen emptyStore (some (List.replicate 501 emptyRecord))).2 =
      emptyStore :=
  c7_structural_rejection 0 idGen emptyStore (some (List.replicate 501 emptyRecord))
    (Or.inr ⟨_, rfl, by simp [MAX_BATCH_SIZE]⟩)

/-- C10. A valid `session_end` record whose session id has no session row
leaves the store completely unchanged — the session_end branch never
creates a placeholder session and the `UPDATE` matches no row — while the
record is still counted as processed (and not as skipped). -/
theorem c10_session_end_without_session (now : Nat) (gen : Nat → String)
    (s : IngestState) (r : EventRecord) (sid : String)
    (hv : validateSessionId r.session_id = some sid)
    (ht : effEventType r = "session_end")
    (hm : ∀ row ∈ s.store.sessions, row.session_id ≠ sid) :
    processEvent now gen s r = { s with processed := s.processed + 1 } := by
  have hstep := processEvent_session_end now gen s r sid hv ht
  have hmap : endSessionRun s.store (r.ended_at.getD now) (effEndStatus r)
      (clampTokens r.total_tokens_in) (clampTokens r.total_tokens_out) sid = s.store := by
    unfold endSessionRun
    have : s.store.sessions.map (fun row =>
        if row.session_id == sid then
          { row with ended_at := some (r.ended_at.getD now), status := effEndStatus r,
                     total_tokens_in := if clampTokens r.total_tokens_in > 0 then
                       clampTokens r.total_tokens_in else row.total_tokens_in,
                     total_tokens_out := if clampTokens r.total_tokens_out > 0 then
                       clampTokens r.total_tokens_out else row.total_tokens_out }
        else row) = s.store.sessions.map id := by
      apply List.map_congr_left
      intro a ha
      have : (a.session_id == sid) = false := by
        simp [hm a ha]
      rw [this]
      rfl
    rw [this, List.map_id]
  rw [hstep, hmap]

/-- C10 witness: a `session_end` for session `s` over the empty store
leaves the state unchanged except `processed = 1`. -/
theorem c10_session_end_without_session_witness :
    processEvent 0 idGen initState lcEnd = { initState with processed := 1 } :=
  c10_session_end_without_session 0 idGen initState lcEnd "s" rfl rfl
    (by intro row hrow; cases hrow)

/-- C5. A `session_end` record overwrites `ended_at`/`status` of the
matching session, and when it supplies no explicit positive totals
(clamped totals 0) every session's token totals are left untouched;
concretely, after `session_start`, three generic events of 10/5 tokens
each and a totals-free `session_end`, the session reads 30/15 with the
record's status and a non-null `ended_at`. -/
theorem c5_session_end_overwrite :
    (∀ (now : Nat) (gen : Nat → String) (s : IngestState) (r : EventRecord)
        (sid : String),
      validateSessionId r.session_id = some sid →
      effEventType r = "session_end" →
      clampTokens r.total_tokens_in = 0 →
      clampTokens r.total_tokens_out = 0 →
      (processEvent now gen s r).store.events = s.store.events ∧
      (processEvent now gen s r).store.sessions = s.store.sessions.map (fun row =>
        if row.session_id == sid then
          { row with ended_at := some (r.ended_at.getD now), status := effEndStatus r }
        else row)) ∧
    ((submit 0 idGen emptyStore (some lifecycleBatch)).1 =
        .ok { processed := 5, skipped := 0 } ∧
      sessionRow (submit 0 idGen emptyStore (some lifecycleBatch)).2 "s" =
        some { session_id := "s", agent_name := "default-agent", started_at := 10,
               ended_at := some 999, metadata := "\x7b\x7d", total_tokens_in := 30,
               total_tokens_out := 15, status := "done" }) := by
  constructor
  · intro now gen s r sid hv ht hin hout
    rw [processEvent_session_end now gen s r sid hv ht]
    refine ⟨rfl, ?_⟩
    unfold endSessionRun
    apply List.map_congr_left
    intro row _
    rw [hin, hout]
    split <;> rfl
  · exact ⟨rfl, rfl⟩

/-- C5 witness: the totals-free `session_end` record `lcEnd` applied to a
state holding the 30/15 session leaves the events table as is and only
rewrites `ended_at`/`status` of the matching session. -/
theorem c5_session_end_overwrite_witness :
    (processEvent 0 idGen { initState with store := accumulatedStore } lcEnd).store.events =
      accumulatedStore.events ∧
    (processEvent 0 idGen { initState with store := accumulatedStore } lcEnd).store.sessions =
      accumulatedStore.sessions.map (fun row =>
        if row.session_id == "s" then
          { row with ended_at := some (lcEnd.ended_at.getD 0), status := effEndStatus lcEnd }
        else row) :=
  c5_session_end_overwrite.1 0 idGen { initState with store := accumulatedStore }
    lcEnd "s" rfl rfl rfl rfl

/-- C9 counterexample. The claim says token totals never decrease under
any processed record. A `session_end` with explicit positive totals 5/2
overwrites the accumulated 30/15, lowering both counters. -/
theorem c9_session_end_lowers_totals :
    (sessionRow accumulatedStore "s").map
      (fun s => (s.total_tokens_in, s.total_tokens_out)) = some (30, 15) ∧
    (sessionRow (submit 0 idGen accumulatedStore (some [lowerEnd])).2 "s").map
      (fun s => (s.total_tokens_in, s.total_tokens_out)) = some (5, 2) ∧
    (5 : Int) < 30 ∧ (2 : Int) < 15 := by
  refine ⟨rfl, rfl, by norm_num, by norm_num⟩

/-- C9 amended. Session token totals are monotonically non-decreasing
under every record that is not a `session_end` (skips leave the store
alone, `session_start` never rewrites an existing row, and ordinary
events add clamped non-negative token counts); a `session_end` leaves
every total unchanged when it supplies no explicit positive totals, but
with explicit positive totals it overwrites them and may lower them. -/
theorem c9_amended_monotone_outside_session_end :
    (∀ (now : Nat) (gen : Nat → String) (s : IngestState) (r : EventRecord)
        (sid : String) (row : SessionRow),
      effEventType r ≠ "session_end" →
      sessionRow s.store sid = some row →
      ∃ row', sessionRow (processEvent now gen s r).store sid = some row' ∧
        row.total_tokens_in ≤ row'.total_tokens_in ∧
        row.total_tokens_out ≤ row'.total_tokens_out) ∧
    (∀ (now : Nat) (gen : Nat → String) (s : IngestState) (r : EventRecord)
        (sid : String) (row : SessionRow),
      effEventType r = "session_end" →
      clampTokens r.total_tokens_in = 0 →
      clampTokens r.total_tokens_out = 0 →
      sessionRow s.store sid = some row →
      ∃ row', sessionRow (processEvent now gen s r).store sid = some row' ∧
        row'.total_tokens_in = row.total_tokens_in ∧
        row'.total_tokens_out = row.total_tokens_out) := by
  constructor
  · intro now gen s r sid row ht hrow
    unfold processEvent
    cases hv : validateSessionId r.session_id with
    | none => exact ⟨row, hrow, le_refl _, le_refl _⟩
    | some sid0 =>
      cases hc : VALID_EVENT_TYPES.contains (effEventType r) with
      | false =>
        simp only [hc, Bool.not_false, if_true]
        exact ⟨row, hrow, le_refl _, le_refl _⟩
      | true =>
        simp only [hc, Bool.not_true, Bool.false_eq_true, if_false]
        split
        · exact ⟨row, sessionRow_insertSessionOrIgnore _ _ _ _ hrow, le_refl _, le_refl _⟩
        · split
          · rename_i hend
            exact absurd (by simpa using hend) ht
          · dsimp only
            rw [sessionRow_updateSessionTokens, sessionRow_insertEventOrIgnore,
                sessionRow_insertSessionOrIgnore _ _ _ _ hrow]
            simp only [Option.map_some']
            refine ⟨_, rfl, ?_, ?_⟩ <;> split <;>
              simp [le_add_of_nonneg_right, clampTokens_nonneg]
  · intro now gen s r sid row ht hin hout hrow
    cases hv : validateSessionId r.session_id with
    | none =>
      unfold processEvent
      rw [hv]
      exact ⟨row, hrow, rfl, rfl⟩
    | some sid0 =>
      rw [processEvent_session_end now gen s r sid0 hv ht]
      dsimp only
      rw [sessionRow_endSessionRun, hrow, hin, hout]
      simp only [Option.map_some']
      refine ⟨_, rfl, ?_, ?_⟩ <;> split <;> rfl

/-- C9 amended witness: a generic 10/5-token record on the 30/15 session
yields a row with totals at least 30/15. -/
theorem c9_amended_monotone_witness :
    ∃ row', sessionRow (processEvent 0 idGen { initState with store := accumulatedStore }
        (lcGeneric 20 "a")).store "s" = some row' ∧
      accRow.total_tokens_in ≤ row'.total_tokens_in ∧
      accRow.total_tokens_out ≤ row'.total_tokens_out :=
  c9_amended_monotone_outside_session_end.1 0 idGen
    { initState with store := accumulatedStore } (lcGeneric 20 "a") "s" accRow
    (by decide) rfl

/-- C4. For a batch within the structural limits, each record is
validated independently: the call succeeds with `processed` counting the
records passing row validation and `skipped` counting the records
failing it (invalid session id or unrecognised event type), and every
valid non-lifecycle record with an explicit event id ends up readable as
a stored event row. -/
theorem c4_partial_batch_resilience (now : Nat) (gen : Nat → String) (st : Store)
    (recs : List EventRecord) (hlen : recs.length ≤ MAX_BATCH_SIZE) :
    (submit now gen st (some recs)).1 =
      .ok { processed := recs.countP rowValid,
            skipped := recs.countP (fun r => !rowValid r) } ∧
    (∀ r ∈ recs, ∀ sid eid, validateSessionId r.session_id = some sid →
      VALID_EVENT_TYPES.contains (effEventType r) = true →
      (effEventType r == "session_start") = false →
      (effEventType r == "session_end") = false →
      explicitEventId r = some eid →
      hasEvent (submit now gen st (some recs)).2 eid = true) := by
  have hnot : ¬ recs.length > MAX_BATCH_SIZE := by omega
  constructor
  · simp only [submit]
    rw [if_neg hnot]
    have h := counters_foldl now gen recs
      { store := st, processed := 0, skipped := 0, fresh := 0 }
    unfold runTransaction
    rw [Except.ok.injEq]
    rw [BatchResult.mk.injEq]
    constructor
    · rw [h.1]
      simp
    · rw [h.2]
      simp
  · intro r hr sid eid hv hc hstart hend hid
    simp only [submit]
    rw [if_neg hnot]
    exact hasEvent_foldl_mem now gen recs _ r sid eid hr hv hstart hend hc hid

/-- C4 witness: the ten-record batch with exactly one invalid session id
yields `processed = 9, skipped = 1`, and the valid event `e7` is
readable afterwards. -/
theorem c4_partial_batch_resilience_witness :
    (submit 0 idGen emptyStore (some tenBatch)).1 =
      .ok { processed := 9, skipped := 1 } ∧
    hasEvent (submit 0 idGen emptyStore (some tenBatch)).2 "e7" = true := by
  have h := c4_partial_batch_resilience 0 idGen emptyStore tenBatch (by decide)
  refine ⟨by rw [h.1]; rfl, ?_⟩
  exact h.2 e7Record (by decide) "s" "e7" rfl rfl rfl rfl rfl

/-- C8. `evaluate(error_rate, window, agent_filter?)` returns
100 × (events of type `error` among the joined events in the window) /
(all joined events in the window), and 0 when the window holds no
events; on a window holding 3 events of which exactly 1 is an `error`,
the value is 100/3 ≈ 33.33. -/
theorem c8_error_rate_formula :
    (∀ (st : Store) (now w : Nat) (af : Option String),
      evaluateMetric st now "error_rate" w af =
        if (eventsInWindow st (now - w * 60000) af).length > 0 then
          .ok ((((eventsInWindow st (now - w * 60000) af).countP
                (fun e => e.event_type == "error") : Rat) /
              ((eventsInWindow st (now - w * 60000) af).length : Rat)) * 100)
        else .ok 0) ∧
    (∀ (st : Store) (now w : Nat) (af : Option String),
      eventsInWindow st (now - w * 60000) af = [] →
      evaluateMetric st now "error_rate" w af = .ok 0) ∧
    (evaluateMetric errorRateStore 1000 "error_rate" 60 none = .ok (100 / 3) ∧
      |(100 : Rat) / 3 - 3333 / 100| < 1 / 100) := by
  refine ⟨fun st now w af => rfl, fun st now w af h => ?_, ?_, by rw [abs_sub_lt_iff]; norm_num⟩
  · have h1 : evaluateMetric st now "error_rate" w af =
        if (eventsInWindow st (now - w * 60000) af).length > 0 then
          .ok ((((eventsInWindow st (now - w * 60000) af).countP
                (fun e => e.event_type == "error") : Rat) /
              ((eventsInWindow st (now - w * 60000) af).length : Rat)) * 100)
        else .ok 0 := rfl
    rw [h1, h]
    simp
  · have h2 : evaluateMetric errorRateStore 1000 "error_rate" 60 none =
        .ok (((1 : Nat) : Rat) / ((3 : Nat) : Rat) * 100) := rfl
    rw [h2]
    simp only [Except.ok.injEq]
    norm_num

/-- C8 witness: over the empty store the window holds no events and the
error rate is 0. -/
theorem c8_error_rate_formula_witness :
    evaluateMetric emptyStore 0 "error_rate" 5 none = .ok 0 :=
  c8_error_rate_formula.2.1 emptyStore 0 5 none rfl

theorem exists_ok_ite (c : Prop) [Decidable c] (a b : Rat) :
    ∃ v, (if c then (Except.ok a : Except String Rat) else .ok b) = .ok v := by
  split
  · exact ⟨a, rfl⟩
  · exact ⟨b, rfl⟩

theorem exists_ok_list (ds : List Rat) :
    ∃ v : Rat, (match ds with
          | [] => (Except.ok 0 : Except String Rat)
          | d :: rest => (Except.ok (rest.foldl max d) : Except String Rat)) =
      Except.ok v := by
  cases ds <;> exact ⟨_, rfl⟩

theorem evaluateMetric_ok_of_known (st : Store) (now : Nat) (m : String)
    (w : Nat) (af : Option String) (h : VALID_METRICS.contains m = true) :
    ∃ v, evaluateMetric st now m w af = .ok v := by
  have hm : m = "total_tokens" ∨ m = "avg_tokens_per_session" ∨ m = "error_rate" ∨
      m = "avg_duration_ms" ∨ m = "max_duration_ms" ∨ m = "session_count" ∨
      m = "event_count" ∨ m = "token_rate" := by
    simpa [VALID_METRICS, List.contains_eq_any_beq] using h
  rcases hm with rfl | rfl | rfl | rfl | rfl | rfl | rfl | rfl
  · exact ⟨_, rfl⟩
  · exact exists_ok_ite _ _ _
  · exact exists_ok_ite _ _ _
  · exact exists_ok_ite _ _ _
  · exact exists_ok_list _
  · exact ⟨_, rfl⟩
  · exact ⟨_, rfl⟩
  · exact exists_ok_ite _ _ _

theorem evaluateMetric_error_of_unknown (st : Store) (now : Nat) (m : String)
    (w : Nat) (af : Option String) (h : VALID_METRICS.contains m = false) :
    evaluateMetric st now m w af = .error ("Unknown metric: " ++ m) := by
  have hm : ¬m = "total_tokens" ∧ ¬m = "avg_tokens_per_session" ∧ ¬m = "error_rate" ∧
      ¬m = "avg_duration_ms" ∧ ¬m = "max_duration_ms" ∧ ¬m = "session_count" ∧
      ¬m = "event_count" ∧ ¬m = "token_rate" := by
    simpa [VALID_METRICS, List.contains_eq_any_beq, not_or] using h
  obtain ⟨h1, h2, h3, h4, h5, h6, h7, h8⟩ := hm
  unfold evaluateMetric
  simp [h1, h2, h3, h4, h5, h6, h7, h8]

theorem ruleStep_error_of_unknown (st : Store) (now : Nat) (aid : String)
    (alerts : List AlertEventRow) (r : AlertRule)
    (h : VALID_METRICS.contains r.metric = false) :
    ruleStep st now aid alerts r = .error ("Unknown metric: " ++ r.metric) := by
  unfold ruleStep
  rw [evaluateMetric_error_of_unknown st now r.metric r.window_minutes r.agent_filter h]

theorem ruleStep_ok_of_ok (st : Store) (now : Nat) (aid : String)
    (alerts : List AlertEventRow) (r : AlertRule) (v : Rat)
    (h : evaluateMetric st now r.metric r.window_minutes r.agent_filter = .ok v) :
    ∃ o al, ruleStep st now aid alerts r = .ok (o, al) := by
  unfold ruleStep
  rw [h]
  dsimp only
  split
  · split <;> exact ⟨_, _, rfl⟩
  · exact ⟨_, _, rfl⟩

theorem evalRulesAux_error_of_unknown (st : Store) (now : Nat) (gen : Nat → String) :
    ∀ (rs : List AlertRule) (alerts : List AlertEventRow) (k : Nat)
      (acc : List EvalOutcome),
      (∃ r ∈ rs, VALID_METRICS.contains r.metric = false) →
      ∃ e, (evalRulesAux st now gen rs alerts k acc).1 = .error e := by
  intro rs
  induction rs with
  | nil =>
    intro alerts k acc h
    obtain ⟨r, hr, -⟩ := h
    cases hr
  | cons r rest ih =>
    intro alerts k acc h
    cases hc : VALID_METRICS.contains r.metric with
    | false =>
      refine ⟨"Unknown metric: " ++ r.metric, ?_⟩
      unfold evalRulesAux
      rw [ruleStep_error_of_unknown st now (gen k) alerts r hc]
    | true =>
      obtain ⟨v, hv⟩ := evaluateMetric_ok_of_known st now r.metric r.window_minutes
        r.agent_filter hc
      obtain ⟨o, al, hstep⟩ := ruleStep_ok_of_ok st now (gen k) alerts r v hv
      unfold evalRulesAux
      rw [hstep]
      apply ih
      obtain ⟨r', hr', hcr'⟩ := h
      rcases List.mem_cons.mp hr' with rfl | hmem
      · rw [hc] at hcr'
        cases hcr'
      · exact ⟨r', hmem, hcr'⟩

/-- C3 counterexample. The claim says an unknown metric on one rule is
reported as a per-rule error while the remaining rules still produce
results. On the code the rule loop has no per-rule error handling: the
thrown `Unknown metric` aborts the whole evaluate pass, so with rules
`[badMetricRule, countRule]` the pass returns only the error and the
healthy `countRule` — which evaluated alone yields an `ok` outcome —
gets no result at all. -/
theorem c3_unknown_metric_aborts_pass :
    (evaluateAll emptyStore 0 idGen [badMetricRule, countRule] []).1 =
      .error "Unknown metric: bogus" ∧
    (∃ o, (evaluateAll emptyStore 0 idGen [countRule] []).1 = .ok [o] ∧
      o.status = "ok") := by
  exact ⟨rfl, ⟨_, rfl, rfl⟩⟩

/-- C3 amended. A rule whose metric name is not one of the eight known
kinds makes the whole evaluate-all pass abort with an error: whenever
some enabled rule has an unknown metric, the pass returns an error and
no per-rule results, for the failing rule or any other. -/
theorem c3_amended_unknown_metric_aborts (st : Store) (now : Nat)
    (gen : Nat → String) (rules : List AlertRule) (alerts : List AlertEventRow)
    (h : ∃ r ∈ rules, r.enabled = true ∧ VALID_METRICS.contains r.metric = false) :
    ∃ e, (evaluateAll st now gen rules alerts).1 = .error e := by
  unfold evaluateAll
  apply evalRulesAux_error_of_unknown
  obtain ⟨r, hr, hen, hm⟩ := h
  exact ⟨r, List.mem_filter.mpr ⟨hr, hen⟩, hm⟩

/-- C3 amended witness: with the unknown-metric rule enabled alongside a
healthy rule, the pass errors out. -/
theorem c3_amended_unknown_metric_aborts_witness :
    ∃ e, (evaluateAll emptyStore 0 idGen [badMetricRule, countRule] []).1 =
      .error e :=
  c3_amended_unknown_metric_aborts emptyStore 0 idGen [badMetricRule, countRule] []
    ⟨badMetricRule, by simp, rfl, rfl⟩

theorem spacedOk_append (c : Nat) (l : List AlertEventRow) (x : AlertEventRow)
    (hl : spacedOk c l = true)
    (hx : ∀ b ∈ l, b.triggered_at + c ≤ x.triggered_at) :
    spacedOk c (l ++ [x]) = true := by
  induction l with
  | nil => rfl
  | cons a l ih =>
    unfold spacedOk at hl ⊢
    rw [Bool.and_eq_true] at hl
    rw [List.cons_append, Bool.and_eq_true]
    refine ⟨?_, ih hl.2 (fun b hb => hx b (List.mem_cons_of_mem a hb))⟩
    rw [List.all_append, Bool.and_eq_true]
    refine ⟨hl.1, ?_⟩
    have hax := hx a (List.mem_cons_self a l)
    simp [hax]

theorem alertsFor_append (alerts : List AlertEventRow) (x : AlertEventRow)
    (rid : String) :
    alertsFor (alerts ++ [x]) rid =
      alertsFor alerts rid ++ (if x.rule_id == rid then [x] else []) := by
  unfold alertsFor
  rw [List.filter_append]
  congr 1
  simp [List.filter_cons]

theorem distinct_rule_unique (rules : List AlertRule)
    (h : distinctRuleIds rules = true) {r r' : AlertRule} (hr : r ∈ rules)
    (hr' : r' ∈ rules) (hid : r.rule_id = r'.rule_id) : r = r' := by
  induction rules with
  | nil => cases hr
  | cons a rs ih =>
    unfold distinctRuleIds at h
    rw [Bool.and_eq_true, List.all_eq_true] at h
    rcases List.mem_cons.mp hr with rfl | hm
    · rcases List.mem_cons.mp hr' with rfl | hm'
      · rfl
      · have := h.1 r' hm'
        simp [← hid] at this
    · rcases List.mem_cons.mp hr' with rfl | hm'
      · have := h.1 r hm
        simp [hid] at this
      · exact ih h.2 hm hm'

theorem cooldown_gap_of_find_none (alerts : List AlertEventRow) (rid : String)
    (now c : Nat)
    (h : alerts.find? (fun a => a.rule_id == rid && decide (now - c ≤ a.triggered_at)) =
      none) :
    ∀ a ∈ alerts, a.rule_id = rid → a.triggered_at + c ≤ now := by
  intro a ha hrid
  have hna := List.find?_eq_none.mp h a ha
  rw [hrid] at hna
  simp at hna
  omega

theorem ruleStep_cooldownInv (rules : List AlertRule) (st : Store) (now : Nat)
    (aid : String) (alerts alerts' : List AlertEventRow) (r : AlertRule)
    (o : EvalOutcome) (hdist : distinctRuleIds rules = true) (hr : r ∈ rules)
    (hinv : cooldownInv rules alerts = true)
    (hstep : ruleStep st now aid alerts r = .ok (o, alerts')) :
    cooldownInv rules alerts' = true := by
  unfold ruleStep at hstep
  cases hev : evaluateMetric st now r.metric r.window_minutes r.agent_filter with
  | error e =>
    rw [hev] at hstep
    cases hstep
  | ok v =>
    rw [hev] at hstep
    dsimp only at hstep
    split at hstep
    · split at hstep
      · -- no recent alert: a new alert at `now` is appended
        rename_i hfind
        rw [Except.ok.injEq, Prod.mk.injEq] at hstep
        rw [← hstep.2]
        unfold cooldownInv at hinv ⊢
        rw [List.all_eq_true] at hinv ⊢
        intro r' hr'
        by_cases hid : r'.rule_id = r.rule_id
        · have hrr : r' = r := distinct_rule_unique rules hdist hr' hr hid
          subst hrr
          rw [alertsFor_append, if_pos (beq_self_eq_true r'.rule_id)]
          apply spacedOk_append
          · exact hinv r' hr'
          · intro b hb
            unfold alertsFor at hb
            rw [List.mem_filter] at hb
            exact cooldown_gap_of_find_none alerts r'.rule_id now
              (r'.cooldown_minutes * 60000) hfind b hb.1 (by simpa using hb.2)
        · rw [alertsFor_append,
            if_neg (fun hcontra => hid (beq_iff_eq.mp hcontra).symm),
            List.append_nil]
          exact hinv r' hr'
      · -- recent alert found: nothing written
        rw [Except.ok.injEq, Prod.mk.injEq] at hstep
        rw [← hstep.2]
        exact hinv
    · -- no breach: nothing written
      rw [Except.ok.injEq, Prod.mk.injEq] at hstep
      rw [← hstep.2]
      exact hinv

theorem evalRulesAux_cooldownInv (rules : List AlertRule) (st : Store) (now : Nat)
    (gen : Nat → String) (hdist : distinctRuleIds rules = true) :
    ∀ (rs : List AlertRule) (alerts : List AlertEventRow) (k : Nat)
      (acc : List EvalOutcome),
      (∀ x ∈ rs, x ∈ rules) → cooldownInv rules alerts = true →
      cooldownInv rules (evalRulesAux st now gen rs alerts k acc).2 = true := by
  intro rs
  induction rs with
  | nil =>
    intro alerts k acc _ hinv
    exact hinv
  | cons r rest ih =>
    intro alerts k acc hsub hinv
    unfold evalRulesAux
    cases hstep : ruleStep st now (gen k) alerts r with
    | error e => exact hinv
    | ok p =>
      obtain ⟨o, al'⟩ := p
      dsimp only
      exact ih al' _ _ (fun x hx => hsub x (List.mem_cons_of_mem r hx))
        (ruleStep_cooldownInv rules st now (gen k) alerts al' r o hdist
          (hsub r (List.mem_cons_self r rest)) hinv hstep)

theorem evaluateAll_cooldownInv (rules : List AlertRule) (st : Store) (now : Nat)
    (gen : Nat → String) (alerts : List AlertEventRow)
    (hdist : distinctRuleIds rules = true) (hinv : cooldownInv rules alerts = true) :
    cooldownInv rules (evaluateAll st now gen rules alerts).2 = true := by
  unfold evaluateAll
  exact evalRulesAux_cooldownInv rules st now gen hdist _ alerts 0 []
    (fun x hx => (List.mem_filter.mp hx).1) hinv

/-- C2. The cooldown policy: (1) over any sequence of evaluate-all
passes, for every rule of a duplicate-free rule set the persisted
AlertEvents stay pairwise at least `cooldown_minutes` apart; (2) on a
breach with a recorded alert inside `now − cooldown_minutes`, the
outcome is `cooldown` and the alert table is unchanged; (3) on a breach
once every alert of the rule is strictly older than the cooldown window
(in particular after the cooldown elapses), a new
AlertEvent{triggered_at = now, metric_value = value} is appended and the
outcome is `fired`. -/
theorem c2_cooldown_spacing :
    (∀ (rules : List AlertRule) (passes : List (Store × Nat × (Nat → String)))
        (alerts0 : List AlertEventRow),
      distinctRuleIds rules = true → cooldownInv rules alerts0 = true →
      cooldownInv rules (runPasses rules passes alerts0) = true) ∧
    (∀ (st : Store) (now : Nat) (aid : String) (alerts : List AlertEventRow)
        (r : AlertRule) (v : Rat),
      evaluateMetric st now r.metric r.window_minutes r.agent_filter = .ok v →
      compareValue v r.operator r.threshold = true →
      ((∃ a ∈ alerts, a.rule_id = r.rule_id ∧
          now - r.cooldown_minutes * 60000 ≤ a.triggered_at) →
        ∃ o, ruleStep st now aid alerts r = .ok (o, alerts) ∧
          o.status = "cooldown") ∧
      ((∀ a ∈ alerts, a.rule_id = r.rule_id →
          a.triggered_at < now - r.cooldown_minutes * 60000) →
        ∃ o, ruleStep st now aid alerts r =
            .ok (o, alerts ++ [firedAlert aid r.rule_id now v]) ∧
          o.status = "fired" ∧ o.alert_id = some aid)) := by
  constructor
  · intro rules passes alerts0 hdist hinv
    induction passes generalizing alerts0 with
    | nil => exact hinv
    | cons p ps ih =>
      exact ih _ (evaluateAll_cooldownInv rules p.1 p.2.1 p.2.2 alerts0 hdist hinv)
  · intro st now aid alerts r v hev htrig
    constructor
    · intro hex
      have hsome : (alerts.find? (fun a => a.rule_id == r.rule_id &&
          decide (now - r.cooldown_minutes * 60000 ≤ a.triggered_at))).isSome := by
        rw [List.find?_isSome]
        obtain ⟨a, ha, h1, h2⟩ := hex
        exact ⟨a, ha, by simp [h1, h2]⟩
      obtain ⟨a, hfind⟩ := Option.isSome_iff_exists.mp hsome
      have heq : ruleStep st now aid alerts r =
          .ok ({ rule_id := r.rule_id, name := r.name, metric := r.metric,
                 operator := r.operator, threshold := r.threshold,
                 current_value := round2 v, triggered := true,
                 window_minutes := r.window_minutes, agent_filter := r.agent_filter,
                 status := "cooldown", alert_id := none }, alerts) := by
        unfold ruleStep
        rw [hev]
        dsimp only
        rw [htrig, if_pos rfl, hfind]
      exact ⟨_, heq, rfl⟩
    · intro hnone
      have hfind : alerts.find? (fun a => a.rule_id == r.rule_id &&
          decide (now - r.cooldown_minutes * 60000 ≤ a.triggered_at)) = none := by
        rw [List.find?_eq_none]
        intro a ha
        by_cases hid : a.rule_id = r.rule_id
        · have := hnone a ha hid
          simp [hid]
          omega
        · simp [hid]
      have heq : ruleStep st now aid alerts r =
          .ok ({ rule_id := r.rule_id, name := r.name, metric := r.metric,
                 operator := r.operator, threshold := r.threshold,
                 current_value := round2 v, triggered := true,
                 window_minutes := r.window_minutes, agent_filter := r.agent_filter,
                 status := "fired", alert_id := some aid },
               alerts ++ [firedAlert aid r.rule_id now v]) := by
        unfold ruleStep
        rw [hev]
        dsimp only
        rw [htrig, if_pos rfl, hfind]
        rfl
      exact ⟨_, heq, rfl, rfl⟩

/-- C2 witness: the three-pass cooldown cycle (fire at t=1000, suppressed
at t=2000, fire again after the 60-minute cooldown) keeps the
`countRule` alert events at least one cooldown apart. -/
theorem c2_cooldown_spacing_witness :
    cooldownInv [countRule]
      (runPasses [countRule]
        [(errorRateStore, 1000, idGen), (errorRateStore, 2000, idGen),
         (errorRateStore, 1000 + 60 * 60000 + 1000, idGen)] []) = true :=
  c2_cooldown_spacing.1 [countRule]
    [(errorRateStore, 1000, idGen), (errorRateStore, 2000, idGen),
     (errorRateStore, 1000 + 60 * 60000 + 1000, idGen)] [] rfl rfl

end AgentLens
